import Mathlib

/-!
Verification of the interactive water-ripple component.

The definitions below are a shallow embedding of the source component
`InteractiveWater` (the ripple physics, the interaction injector, the
per-pixel refraction renderer) together with the `RippleConfig` record.

Modelling conventions:
* The two `Int16Array` amplitude buffers are `List Int`; every store into a
  buffer goes through `wrap16`, the signed 16-bit wrap that an `Int16Array`
  store performs.
* `ImageData` byte buffers (texture and output) are `List Nat`; every store
  into the output goes through the `Uint8ClampedArray` semantics: clamp to
  [0, 255] and round, ties to even (`byteStore`).  Stores of plain integer
  byte values only clamp.
* JavaScript number arithmetic on the config scalars (`damping`, `shimmer`,
  the tint and highlight blends) is modelled with exact rationals; `Math.floor`
  is `Int.floor` and `x >> 1` on an `Int32` value is `Int.fdiv x 2`.
* Out-of-range reads of a JS typed array yield `undefined`; the pixel loop
  never performs them, and the embedding uses `List.getD _ _ 0` whose default
  is never hit on the index ranges the loop uses.
-/

namespace Water

/-- Signed 16-bit wrap: the value an `Int16Array` store leaves in the array. -/
def wrap16 (v : Int) : Int := (v + 32768) % 65536 - 32768

/-- The background style of a theme (`'solid' | 'gradient'`). -/
inductive BackgroundType where
  | solid : BackgroundType
  | gradient : BackgroundType
deriving DecidableEq

/-- The `RippleConfig` record from `types.ts`. -/
structure RippleConfig where
  damping : ℚ
  shimmer : ℚ
  baseColor : String
  highlightColor : String
  backgroundType : BackgroundType
  label : String

/-- The `DEFAULT_CONFIG` constant from `types.ts`. -/
def DEFAULT_CONFIG : RippleConfig :=
  { damping := 96/100
    shimmer := 5
    baseColor := "#000000"
    highlightColor := "#00d2ff"
    backgroundType := BackgroundType.solid
    label := "Deep Water" }

/-- Whether a character is one of the digits `[a-f\d]` (case-insensitive)
matched by the color regex. -/
def isHexDigit (c : Char) : Bool :=
  ('0' ≤ c && c ≤ '9') || ('a' ≤ c && c ≤ 'f') || ('A' ≤ c && c ≤ 'F')

/-- Numeric value of a hex digit (0 for non-digits, never reached on
matched input). -/
def hexDigitVal (c : Char) : Nat :=
  if '0' ≤ c && c ≤ '9' then c.toNat - '0'.toNat
  else if 'a' ≤ c && c ≤ 'f' then c.toNat - 'a'.toNat + 10
  else if 'A' ≤ c && c ≤ 'F' then c.toNat - 'A'.toNat + 10
  else 0

/-- Drop the optional leading `#` (the `#?` part of the regex). -/
def stripHash : List Char → List Char
  | '#' :: r => r
  | l => l

/-- Whether a string matches the color regex
`^#?([a-f\d]{2})([a-f\d]{2})([a-f\d]{2})$` (case-insensitive). -/
def isHexColor (s : String) : Bool :=
  match stripHash s.data with
  | [c1, c2, c3, c4, c5, c6] =>
      isHexDigit c1 && isHexDigit c2 && isHexDigit c3 &&
      isHexDigit c4 && isHexDigit c5 && isHexDigit c6
  | _ => false

/-- The `hexToRgb` helper of the render loop: parse `#RRGGBB` (the `#` is
optional, hex digits case-insensitive); any non-matching string gives
`(0, 0, 0)`. -/
def hexToRgb (s : String) : Nat × Nat × Nat :=
  match stripHash s.data with
  | [c1, c2, c3, c4, c5, c6] =>
      if isHexDigit c1 && isHexDigit c2 && isHexDigit c3 &&
         isHexDigit c4 && isHexDigit c5 && isHexDigit c6 then
        (16 * hexDigitVal c1 + hexDigitVal c2,
         16 * hexDigitVal c3 + hexDigitVal c4,
         16 * hexDigitVal c5 + hexDigitVal c6)
      else (0, 0, 0)
  | _ => (0, 0, 0)

/-- The interaction effect (`useEffect` on `interactionPoint`): when the point
is active and the grid is allocated, set every cell of the current buffer
within the circular brush (radius 4, loop offsets `[-4, 4)` in each axis,
bounds-checked, squared distance `< 16`) to the strength constant 600,
stored through the `Int16Array`. -/
def inject (g : List Int) (px py : ℚ) (active : Bool) (w h : Nat) : List Int :=
  if active ∧ 0 < w then
    let x : Int := ⌊px * w⌋
    let y : Int := ⌊py * h⌋
    (List.range 8).foldl (fun ga dj =>
      (List.range 8).foldl (fun gb di =>
        let i : Int := x - 4 + di
        let j : Int := y - 4 + dj
        if 0 ≤ i ∧ i < w ∧ 0 ≤ j ∧ j < h ∧
            (i - x) * (i - x) + (j - y) * (j - y) < 16 then
          gb.set (j * w + i).toNat (wrap16 600)
        else gb) ga) g
  else g

/-- The value the physics line
`buffer2[i] = ((buffer1[i-1] + buffer1[i+1] + buffer1[i-w] + buffer1[i+w]) >> 1) - buffer2[i]`
computes before it is stored (the shift `>> 1` floors the sum). -/
def rawUpdate (w : Nat) (b1 b2 : List Int) (i : Nat) : Int :=
  (b1.getD (i-1) 0 + b1.getD (i+1) 0 + b1.getD (i-w) 0 + b1.getD (i+w) 0).fdiv 2
    - b2.getD i 0

/-- The final amplitude the physics lines leave in `buffer2[i]`: the raw
update is stored (16-bit wrap), read back, damped with
`Math.floor(buffer2[i] * damping)` and stored again. -/
def stepCell (w : Nat) (b1 b2 : List Int) (d : ℚ) (i : Nat) : Int :=
  wrap16 ⌊(wrap16 (rawUpdate w b1 b2 i) : ℚ) * d⌋

/-- The indices the pixel loop visits: `for (i = w + 1; i < w*h - w - 1; i++)`. -/
def loopIdxs (w h : Nat) : List Nat :=
  (List.range (w * h - (2 * w + 2))).map (fun k => w + 1 + k)

/-- The physics part of the pixel loop on its own: fold the in-place update
of `buffer2` over the loop indices. -/
def stepGrid (w h : Nat) (b1 b2 : List Int) (d : ℚ) : List Int :=
  (loopIdxs w h).foldl (fun b i => b.set i (stepCell w b1 b d i)) b2

/-- One whole frame of the physics including the final buffer swap:
`buffer1` (current) and `buffer2` (previous) become
(updated `buffer2`, old `buffer1`). -/
def propFrame (w h : Nat) (d : ℚ) (p : List Int × List Int) : List Int × List Int :=
  (stepGrid w h p.1 p.2 d, p.1)

/-- Uint8ClampedArray store semantics for a JS number: clamp to [0, 255] and
round to the nearest integer, ties to even. -/
def roundHalfEven (q : ℚ) : Int :=
  if q - ⌊q⌋ < 1/2 then ⌊q⌋
  else if (1 : ℚ)/2 < q - ⌊q⌋ then ⌊q⌋ + 1
  else if ⌊q⌋ % 2 = 0 then ⌊q⌋ else ⌊q⌋ + 1

/-- Store a JS number into a `Uint8ClampedArray` slot. -/
def byteStore (q : ℚ) : Nat := (max 0 (min 255 (roundHalfEven q))).toNat

/-- The displacement `Math.floor(offset * 0.05 * config.shimmer)`. -/
def distortion (shimmer : ℚ) (off : Int) : Int := ⌊(off : ℚ) * 0.05 * shimmer⌋

/-- The tint factor `Math.min(1.0, (|dx| + |dy|) / 20)`. -/
def tintFactorOf (dx dy : Int) : ℚ :=
  min 1 (((dx.natAbs + dy.natAbs : Nat) : ℚ) / 20)

/-- The boundary clamp `if (v < 0) v = 0; if (v >= n) v = n - 1;`. -/
def clampCoord (v : Int) (n : Nat) : Int :=
  if v < 0 then 0 else if (n : Int) ≤ v then (n : Int) - 1 else v

/-- The rendering tail of one pixel-loop iteration, given the two gradients
already read from the amplitude buffer: refraction sampling, specular
highlight, liquid tint.  Returns the three RGB bytes stored for the pixel
(the alpha byte is always 255). -/
def pixelCore (w h : Nat) (tex : List Nat) (cfg : RippleConfig)
    (gx gy : Int) (x y : Nat) : Nat × Nat × Nat :=
  let dx := distortion cfg.shimmer gx
  let dy := distortion cfg.shimmer gy
  let sourceX := clampCoord ((x : Int) + dx) w
  let sourceY := clampCoord ((y : Int) + dy) h
  let sourceIdx := (sourceY * w + sourceX).toNat * 4
  let tintFactor := tintFactorOf dx dy
  let r0 := min 255 (tex.getD sourceIdx 0)
  let g0 := min 255 (tex.getD (sourceIdx + 1) 0)
  let b0 := min 255 (tex.getD (sourceIdx + 2) 0)
  let shading := gx - gy
  let hl := hexToRgb cfg.highlightColor
  let base := hexToRgb cfg.baseColor
  let intensity : Int := min 255 (shading * 2)
  let r1 := if 10 < shading then
      byteStore (min 255 ((r0 : ℚ) + (intensity : ℚ) * ((hl.1 : ℚ) / 255))) else r0
  let g1 := if 10 < shading then
      byteStore (min 255 ((g0 : ℚ) + (intensity : ℚ) * ((hl.2.1 : ℚ) / 255))) else g0
  let b1 := if 10 < shading then
      byteStore (min 255 ((b0 : ℚ) + (intensity : ℚ) * ((hl.2.2 : ℚ) / 255))) else b0
  if (0.05 : ℚ) < tintFactor then
    (byteStore ((r1 : ℚ) * (1 - tintFactor * 0.5) + (base.1 : ℚ) * (tintFactor * 0.5)),
     byteStore ((g1 : ℚ) * (1 - tintFactor * 0.5) + (base.2.1 : ℚ) * (tintFactor * 0.5)),
     byteStore ((b1 : ℚ) * (1 - tintFactor * 0.5) + (base.2.2 : ℚ) * (tintFactor * 0.5)))
  else (r1, g1, b1)

/-- Write one RGBA pixel (bytes `t`, `t+1`, `t+2`, `t+3`) into the output. -/
def writeRGBA (out : List Nat) (t : Nat) (p : Nat × Nat × Nat) : List Nat :=
  (((out.set t p.1).set (t + 1) p.2.1).set (t + 2) p.2.2).set (t + 3) 255

/-- One iteration of the combined physics-and-render pixel loop, carrying
`(buffer2, output)`: update `buffer2[i]` in place, then read the two
gradients from the partially updated buffer and render pixel `i`. -/
def frameBody (w h : Nat) (b1 : List Int) (tex : List Nat) (cfg : RippleConfig)
    (st : List Int × List Nat) (i : Nat) : List Int × List Nat :=
  let b2 := st.1.set i (stepCell w b1 st.1 cfg.damping i)
  let gx := b2.getD (i-1) 0 - b2.getD (i+1) 0
  let gy := b2.getD (i-w) 0 - b2.getD (i+w) 0
  (b2, writeRGBA st.2 (i * 4) (pixelCore w h tex cfg gx gy (i % w) (i / w)))

/-- The whole pixel loop of one frame (`renderloop` step 3): physics and
rendering folded together over the loop indices, starting from the previous
buffer `b2` and an output buffer `out0`. -/
def renderloop (w h : Nat) (b1 b2 : List Int) (tex : List Nat)
    (cfg : RippleConfig) (out0 : List Nat) : List Int × List Nat :=
  (loopIdxs w h).foldl (frameBody w h b1 tex cfg) (b2, out0)

/-- The amplitude the renderer of pixel `i` actually sees at buffer index
`j ≤ i - 1`: positions from `w + 1` on have already been overwritten by this
frame's physics, earlier positions still hold the previous frame's value. -/
def mixVal (w : Nat) (b1 b2 : List Int) (d : ℚ) (j : Nat) : Int :=
  if w + 1 ≤ j ∧ j < b2.length then stepCell w b1 b2 d j else b2.getD j 0

/-- The horizontal gradient rendering pixel `i` uses: the left neighbour from
the partially updated buffer, the right neighbour from the previous frame. -/
def gradX (w : Nat) (b1 b2 : List Int) (d : ℚ) (i : Nat) : Int :=
  mixVal w b1 b2 d (i-1) - b2.getD (i+1) 0

/-- The vertical gradient rendering pixel `i` uses: the upper neighbour from
the partially updated buffer, the lower neighbour from the previous frame. -/
def gradY (w : Nat) (b1 b2 : List Int) (d : ℚ) (i : Nat) : Int :=
  mixVal w b1 b2 d (i-w) - b2.getD (i+w) 0

/-- Closed form of the RGB bytes the pixel loop stores for pixel `i`. -/
def renderPixel (w h : Nat) (b1 b2 : List Int) (tex : List Nat)
    (cfg : RippleConfig) (i : Nat) : Nat × Nat × Nat :=
  pixelCore w h tex cfg (gradX w b1 b2 cfg.damping i) (gradY w b1 b2 cfg.damping i)
    (i % w) (i / w)

/-- Byte `k` (0-3) of an RGBA pixel whose RGB triple is `p`. -/
def rgbaByte (p : Nat × Nat × Nat) (k : Nat) : Nat :=
  match k with
  | 0 => p.1
  | 1 => p.2.1
  | 2 => p.2.2
  | _ => 255

/-- Follows the claim wording for the propagation formula with the division
truncated toward zero: `Int.div` rounds toward zero, unlike the `>> 1`
shift of the source. -/
def claimCellTrunc (w : Nat) (b1 b2 : List Int) (d : ℚ) (i : Nat) : Int :=
  ⌊(((b1.getD (i-1) 0 + b1.getD (i+1) 0 + b1.getD (i-w) 0 + b1.getD (i+w) 0).tdiv 2
      - b2.getD i 0 : Int) : ℚ) * d⌋

/-- Follows the spec wording for the renderer gradients: both gradients read
the fully post-propagation grid of the frame. -/
def renderFromPost (w h : Nat) (b1 b2 : List Int) (tex : List Nat)
    (cfg : RippleConfig) (i : Nat) : Nat × Nat × Nat :=
  let g := stepGrid w h b1 b2 cfg.damping
  pixelCore w h tex cfg (g.getD (i-1) 0 - g.getD (i+1) 0)
    (g.getD (i-w) 0 - g.getD (i+w) 0) (i % w) (i / w)

/-! ## Auxiliary lemmas -/

theorem wrap16_lb (v : Int) : -32768 ≤ wrap16 v := by
  have h := Int.emod_nonneg (v + 32768) (by norm_num : (65536 : Int) ≠ 0)
  simp only [wrap16]
  omega

theorem wrap16_ub (v : Int) : wrap16 v ≤ 32767 := by
  have h := Int.emod_lt_of_pos (v + 32768) (by norm_num : (0 : Int) < 65536)
  simp only [wrap16]
  omega

theorem wrap16_modeq (v : Int) : wrap16 v ≡ v [ZMOD 65536] := by
  simp only [Int.ModEq, wrap16]
  omega

theorem getD_replicate_self (c : Int) (n j : Nat) :
    (List.replicate n c).getD j c = c := by
  rw [List.getD_eq_getElem?_getD, List.getElem?_replicate]
  by_cases h : j < n <;> simp [h]

theorem getD_replicate_nat (c : Nat) (n j : Nat) :
    (List.replicate n c).getD j 0 = 0 ∨ (List.replicate n c).getD j 0 = c := by
  rw [List.getD_eq_getElem?_getD, List.getElem?_replicate]
  by_cases h : j < n <;> simp [h]

theorem stepCell_congr (w : Nat) (b1 b b2 : List Int) (d : ℚ) (i : Nat)
    (h : b.getD i 0 = b2.getD i 0) :
    stepCell w b1 b d i = stepCell w b1 b2 d i := by
  simp only [stepCell, rawUpdate, h]

theorem stepFold_length (w : Nat) (b1 : List Int) (d : ℚ) (l : List Nat) :
    ∀ (b : List Int),
      (l.foldl (fun b i => b.set i (stepCell w b1 b d i)) b).length = b.length := by
  induction l with
  | nil => intro b; rfl
  | cons a l ih =>
      intro b
      rw [List.foldl_cons, ih, List.length_set]

theorem range_map_succ (w n : Nat) :
    (List.range (n + 1)).map (fun k => w + 1 + k) =
      (List.range n).map (fun k => w + 1 + k) ++ [w + 1 + n] := by
  rw [List.range_succ, List.map_append]
  rfl

theorem stepFold_getElem? (w : Nat) (b1 b2 : List Int) (d : ℚ) (n : Nat) :
    ∀ (j : Nat),
      (((List.range n).map (fun k => w + 1 + k)).foldl
          (fun b i => b.set i (stepCell w b1 b d i)) b2)[j]? =
        if w + 1 ≤ j ∧ j < w + 1 + n ∧ j < b2.length then some (stepCell w b1 b2 d j)
        else b2[j]? := by
  induction n with
  | zero =>
      intro j
      rw [if_neg (by omega)]
      rfl
  | succ n ih =>
      intro j
      rw [range_map_succ, List.foldl_append, List.foldl_cons, List.foldl_nil]
      have hlen : (((List.range n).map (fun k => w + 1 + k)).foldl
          (fun b i => b.set i (stepCell w b1 b d i)) b2).length = b2.length :=
        stepFold_length w b1 d _ b2
      have hsame : (((List.range n).map (fun k => w + 1 + k)).foldl
          (fun b i => b.set i (stepCell w b1 b d i)) b2).getD (w + 1 + n) 0 =
          b2.getD (w + 1 + n) 0 := by
        rw [List.getD_eq_getElem?_getD, List.getD_eq_getElem?_getD, ih]
        rw [if_neg (by omega)]
      rw [stepCell_congr w b1 _ b2 d (w + 1 + n) hsame]
      rw [List.getElem?_set, hlen]
      by_cases hj : w + 1 + n = j
      · subst hj
        rw [if_pos rfl]
        by_cases hb : w + 1 + n < b2.length
        · rw [if_pos hb, if_pos (show w + 1 ≤ w + 1 + n ∧ w + 1 + n < w + 1 + (n + 1) ∧
            w + 1 + n < b2.length by omega)]
        · rw [if_neg hb, if_neg (show ¬(w + 1 ≤ w + 1 + n ∧ w + 1 + n < w + 1 + (n + 1) ∧
            w + 1 + n < b2.length) by omega)]
          exact (List.getElem?_eq_none (by omega)).symm
      · rw [if_neg hj, ih]
        by_cases hc : w + 1 ≤ j ∧ j < w + 1 + n ∧ j < b2.length
        · rw [if_pos hc, if_pos (by omega)]
        · rw [if_neg hc, if_neg (by omega)]

theorem stepGrid_getElem? (w h : Nat) (b1 b2 : List Int) (d : ℚ) (j : Nat) :
    (stepGrid w h b1 b2 d)[j]? =
      if w + 1 ≤ j ∧ j < w * h - w - 1 ∧ j < b2.length then some (stepCell w b1 b2 d j)
      else b2[j]? := by
  rw [stepGrid, loopIdxs, stepFold_getElem?]
  by_cases hc : w + 1 ≤ j ∧ j < w + 1 + (w * h - (2 * w + 2)) ∧ j < b2.length
  · rw [if_pos hc, if_pos (by omega)]
  · rw [if_neg hc, if_neg (by omega)]

theorem stepGrid_getD (w h : Nat) (b1 b2 : List Int) (d : ℚ) (j : Nat) :
    (stepGrid w h b1 b2 d).getD j 0 =
      if w + 1 ≤ j ∧ j < w * h - w - 1 ∧ j < b2.length then stepCell w b1 b2 d j
      else b2.getD j 0 := by
  rw [List.getD_eq_getElem?_getD, List.getD_eq_getElem?_getD, stepGrid_getElem?]
  by_cases hc : w + 1 ≤ j ∧ j < w * h - w - 1 ∧ j < b2.length
  · rw [if_pos hc, if_pos hc]
    rfl
  · rw [if_neg hc, if_neg hc]

theorem stepGrid_length (w h : Nat) (b1 b2 : List Int) (d : ℚ) :
    (stepGrid w h b1 b2 d).length = b2.length :=
  stepFold_length w b1 d _ b2

theorem frameBody_eq (w h : Nat) (b1 : List Int) (tex : List Nat) (cfg : RippleConfig)
    (st : List Int × List Nat) (i : Nat) :
    frameBody w h b1 tex cfg st i =
      (st.1.set i (stepCell w b1 st.1 cfg.damping i),
       writeRGBA st.2 (i * 4)
         (pixelCore w h tex cfg
           ((st.1.set i (stepCell w b1 st.1 cfg.damping i)).getD (i-1) 0 -
            (st.1.set i (stepCell w b1 st.1 cfg.damping i)).getD (i+1) 0)
           ((st.1.set i (stepCell w b1 st.1 cfg.damping i)).getD (i-w) 0 -
            (st.1.set i (stepCell w b1 st.1 cfg.damping i)).getD (i+w) 0)
           (i % w) (i / w))) := rfl

theorem renderFold_fst (w h : Nat) (b1 : List Int) (tex : List Nat) (cfg : RippleConfig)
    (l : List Nat) :
    ∀ (st : List Int × List Nat),
      (l.foldl (frameBody w h b1 tex cfg) st).1 =
        l.foldl (fun b i => b.set i (stepCell w b1 b cfg.damping i)) st.1 := by
  induction l with
  | nil => intro st; rfl
  | cons a l ih =>
      intro st
      rw [List.foldl_cons, List.foldl_cons, ih]
      rfl

theorem writeRGBA_length (out : List Nat) (t : Nat) (p : Nat × Nat × Nat) :
    (writeRGBA out t p).length = out.length := by
  simp [writeRGBA]

theorem renderFold_snd_length (w h : Nat) (b1 : List Int) (tex : List Nat)
    (cfg : RippleConfig) (l : List Nat) :
    ∀ (st : List Int × List Nat),
      (l.foldl (frameBody w h b1 tex cfg) st).2.length = st.2.length := by
  induction l with
  | nil => intro st; rfl
  | cons a l ih =>
      intro st
      rw [List.foldl_cons, ih]
      exact writeRGBA_length st.2 (a * 4) _

theorem writeRGBA_getElem? (out : List Nat) (t : Nat) (p : Nat × Nat × Nat) (m : Nat)
    (hm : t + 3 < out.length) :
    (writeRGBA out t p)[m]? =
      if t ≤ m ∧ m < t + 4 then some (rgbaByte p (m - t)) else out[m]? := by
  simp only [writeRGBA]
  rw [List.getElem?_set, List.getElem?_set, List.getElem?_set, List.getElem?_set]
  simp only [List.length_set]
  by_cases h3 : t + 3 = m
  · rw [if_pos h3, if_pos (by omega), if_pos (by omega)]
    have : m - t = 3 := by omega
    rw [this]
    rfl
  · rw [if_neg h3]
    by_cases h2 : t + 2 = m
    · rw [if_pos h2, if_pos (by omega), if_pos (by omega)]
      have : m - t = 2 := by omega
      rw [this]
      rfl
    · rw [if_neg h2]
      by_cases h1 : t + 1 = m
      · rw [if_pos h1, if_pos (by omega), if_pos (by omega)]
        have : m - t = 1 := by omega
        rw [this]
        rfl
      · rw [if_neg h1]
        by_cases h0 : t = m
        · rw [if_pos h0, if_pos (by omega), if_pos (by omega)]
          have : m - t = 0 := by omega
          rw [this]
          rfl
        · rw [if_neg h0, if_neg (by omega)]

theorem renderFold_out (w h : Nat) (b1 b2 : List Int) (tex out0 : List Nat)
    (cfg : RippleConfig) (hw : 1 ≤ w) (hb2 : b2.length = w * h)
    (hout : out0.length = 4 * (w * h)) :
    ∀ (n : Nat), w + 1 + n ≤ w * h - w - 1 →
      ∀ (m : Nat),
        (((List.range n).map (fun k => w + 1 + k)).foldl (frameBody w h b1 tex cfg)
            (b2, out0)).2[m]? =
          if 4 * (w + 1) ≤ m ∧ m < 4 * (w + 1 + n) then
            some (rgbaByte (renderPixel w h b1 b2 tex cfg (m / 4)) (m % 4))
          else out0[m]? := by
  intro n
  induction n with
  | zero =>
      intro _ m
      rw [if_neg (by omega)]
      rfl
  | succ n ih =>
      intro hn m
      have hn' : w + 1 + n ≤ w * h - w - 1 := by omega
      rw [range_map_succ, List.foldl_append, List.foldl_cons, List.foldl_nil, frameBody_eq]
      have hfst : (((List.range n).map (fun k => w + 1 + k)).foldl (frameBody w h b1 tex cfg)
          (b2, out0)).1 =
          ((List.range n).map (fun k => w + 1 + k)).foldl
            (fun b i => b.set i (stepCell w b1 b cfg.damping i)) b2 :=
        renderFold_fst w h b1 tex cfg _ (b2, out0)
      have hlen1 : (((List.range n).map (fun k => w + 1 + k)).foldl (frameBody w h b1 tex cfg)
          (b2, out0)).1.length = b2.length := by
        rw [hfst]
        exact stepFold_length w b1 cfg.damping _ b2
      have hchar : ∀ j, (((List.range n).map (fun k => w + 1 + k)).foldl
          (frameBody w h b1 tex cfg) (b2, out0)).1.getD j 0 =
          if w + 1 ≤ j ∧ j < w + 1 + n ∧ j < b2.length then stepCell w b1 b2 cfg.damping j
          else b2.getD j 0 := by
        intro j
        rw [hfst, List.getD_eq_getElem?_getD, stepFold_getElem?]
        by_cases hc : w + 1 ≤ j ∧ j < w + 1 + n ∧ j < b2.length
        · rw [if_pos hc, if_pos hc]
          rfl
        · rw [if_neg hc, if_neg hc, List.getD_eq_getElem?_getD]
      have hset : ∀ (j : Nat) (v : Int), j ≠ w + 1 + n →
          ((((List.range n).map (fun k => w + 1 + k)).foldl (frameBody w h b1 tex cfg)
            (b2, out0)).1.set (w + 1 + n) v).getD j 0 =
          (((List.range n).map (fun k => w + 1 + k)).foldl (frameBody w h b1 tex cfg)
            (b2, out0)).1.getD j 0 := by
        intro j v hne
        rw [List.getD_eq_getElem?_getD, List.getElem?_set,
          if_neg (fun hx => hne hx.symm), ← List.getD_eq_getElem?_getD]
      have hr1 : ∀ (v : Int),
          ((((List.range n).map (fun k => w + 1 + k)).foldl (frameBody w h b1 tex cfg)
            (b2, out0)).1.set (w + 1 + n) v).getD (w + 1 + n - 1) 0 =
          mixVal w b1 b2 cfg.damping (w + 1 + n - 1) := by
        intro v
        rw [hset _ _ (by omega), hchar, mixVal]
        by_cases hc : w + 1 ≤ w + 1 + n - 1 ∧ w + 1 + n - 1 < b2.length
        · rw [if_pos (by omega), if_pos hc]
        · rw [if_neg (by omega), if_neg hc]
      have hr2 : ∀ (v : Int),
          ((((List.range n).map (fun k => w + 1 + k)).foldl (frameBody w h b1 tex cfg)
            (b2, out0)).1.set (w + 1 + n) v).getD (w + 1 + n + 1) 0 =
          b2.getD (w + 1 + n + 1) 0 := by
        intro v
        rw [hset _ _ (by omega), hchar, if_neg (by omega)]
      have hr3 : ∀ (v : Int),
          ((((List.range n).map (fun k => w + 1 + k)).foldl (frameBody w h b1 tex cfg)
            (b2, out0)).1.set (w + 1 + n) v).getD (w + 1 + n - w) 0 =
          mixVal w b1 b2 cfg.damping (w + 1 + n - w) := by
        intro v
        rw [hset _ _ (by omega), hchar, mixVal]
        by_cases hc : w + 1 ≤ w + 1 + n - w ∧ w + 1 + n - w < b2.length
        · rw [if_pos (by omega), if_pos hc]
        · rw [if_neg (by omega), if_neg hc]
      have hr4 : ∀ (v : Int),
          ((((List.range n).map (fun k => w + 1 + k)).foldl (frameBody w h b1 tex cfg)
            (b2, out0)).1.set (w + 1 + n) v).getD (w + 1 + n + w) 0 =
          b2.getD (w + 1 + n + w) 0 := by
        intro v
        rw [hset _ _ (by omega), hchar, if_neg (by omega)]
      rw [hr1, hr2, hr3, hr4]
      have hrp : pixelCore w h tex cfg
          (mixVal w b1 b2 cfg.damping (w + 1 + n - 1) - b2.getD (w + 1 + n + 1) 0)
          (mixVal w b1 b2 cfg.damping (w + 1 + n - w) - b2.getD (w + 1 + n + w) 0)
          ((w + 1 + n) % w) ((w + 1 + n) / w) =
          renderPixel w h b1 b2 tex cfg (w + 1 + n) := rfl
      rw [hrp]
      have hlen2 : (((List.range n).map (fun k => w + 1 + k)).foldl (frameBody w h b1 tex cfg)
          (b2, out0)).2.length = out0.length :=
        renderFold_snd_length w h b1 tex cfg _ (b2, out0)
      rw [writeRGBA_getElem? _ _ _ m (by rw [hlen2]; omega)]
      by_cases hm : (w + 1 + n) * 4 ≤ m ∧ m < (w + 1 + n) * 4 + 4
      · rw [if_pos hm, if_pos (by omega)]
        have h1 : m / 4 = w + 1 + n := by omega
        have h2 : m % 4 = m - (w + 1 + n) * 4 := by omega
        rw [h1, h2]
      · rw [if_neg hm, ih hn']
        by_cases hc : 4 * (w + 1) ≤ m ∧ m < 4 * (w + 1 + n)
        · rw [if_pos hc, if_pos (by omega)]
        · rw [if_neg hc, if_neg (by omega)]

theorem renderloop_fst (w h : Nat) (b1 b2 : List Int) (tex out0 : List Nat)
    (cfg : RippleConfig) :
    (renderloop w h b1 b2 tex cfg out0).1 = stepGrid w h b1 b2 cfg.damping := by
  rw [renderloop, stepGrid, loopIdxs]
  exact renderFold_fst w h b1 tex cfg _ (b2, out0)

theorem renderloop_out (w h : Nat) (b1 b2 : List Int) (tex out0 : List Nat)
    (cfg : RippleConfig) (hw : 1 ≤ w) (hwh : 2 * w + 2 ≤ w * h)
    (hb2 : b2.length = w * h) (hout : out0.length = 4 * (w * h)) (m : Nat) :
    (renderloop w h b1 b2 tex cfg out0).2[m]? =
      if 4 * (w + 1) ≤ m ∧ m < 4 * (w * h - w - 1) then
        some (rgbaByte (renderPixel w h b1 b2 tex cfg (m / 4)) (m % 4))
      else out0[m]? := by
  rw [renderloop, loopIdxs]
  rw [renderFold_out w h b1 b2 tex out0 cfg hw hb2 hout (w * h - (2 * w + 2)) (by omega) m]
  by_cases hc : 4 * (w + 1) ≤ m ∧ m < 4 * (w + 1 + (w * h - (2 * w + 2)))
  · rw [if_pos hc, if_pos (by omega)]
  · rw [if_neg hc, if_neg (by omega)]

theorem foldl_setIf_length (C : Int) (P : Nat → Prop) [DecidablePred P] (pos : Nat → Nat)
    (l : List Nat) : ∀ (g : List Int),
      (l.foldl (fun gb e => if P e then gb.set (pos e) C else gb) g).length = g.length := by
  induction l with
  | nil => intro g; rfl
  | cons a l ih =>
      intro g
      rw [List.foldl_cons, ih]
      by_cases hp : P a
      · rw [if_pos hp, List.length_set]
      · rw [if_neg hp]

theorem foldl_setIf_getElem? (C : Int) (P : Nat → Prop) [DecidablePred P] (pos : Nat → Nat)
    (l : List Nat) : ∀ (g : List Int) (k : Nat),
      (l.foldl (fun gb e => if P e then gb.set (pos e) C else gb) g)[k]? =
        if (∃ e ∈ l, P e ∧ pos e = k) ∧ k < g.length then some C else g[k]? := by
  induction l with
  | nil =>
      intro g k
      rw [if_neg (by simp)]
      rfl
  | cons a l ih =>
      intro g k
      rw [List.foldl_cons, ih]
      simp only [List.exists_mem_cons_iff]
      by_cases hp : P a
      · rw [if_pos hp, List.length_set]
        by_cases h1 : (∃ e ∈ l, P e ∧ pos e = k) ∧ k < g.length
        · rw [if_pos h1, if_pos ⟨Or.inr h1.1, h1.2⟩]
        · rw [if_neg h1]
          by_cases h2 : ((P a ∧ pos a = k) ∨ ∃ e ∈ l, P e ∧ pos e = k) ∧ k < g.length
          · rw [if_pos h2]
            rcases h2 with ⟨hor, hklen⟩
            rcases hor with ⟨_, hk⟩ | ht
            · subst hk
              exact List.getElem?_set_self hklen
            · exact absurd ⟨ht, hklen⟩ h1
          · rw [if_neg h2, List.getElem?_set]
            by_cases hk : pos a = k
            · rw [if_pos hk]
              have hnl : ¬ k < g.length := fun hl => h2 ⟨Or.inl ⟨hp, hk⟩, hl⟩
              rw [if_neg (by omega)]
              exact (List.getElem?_eq_none (by omega)).symm
            · rw [if_neg hk]
      · rw [if_neg hp]
        by_cases h1 : (∃ e ∈ l, P e ∧ pos e = k) ∧ k < g.length
        · rw [if_pos h1, if_pos ⟨Or.inr h1.1, h1.2⟩]
        · rw [if_neg h1, if_neg (fun h2 => h1 ⟨h2.1.resolve_left (fun hh => hp hh.1), h2.2⟩)]

theorem foldl_setIf2_length (C : Int) (P : Nat → Nat → Prop) [∀ a b, Decidable (P a b)]
    (pos : Nat → Nat → Nat) (inner : List Nat) (l : List Nat) :
    ∀ (g : List Int),
      (l.foldl (fun ga dj => inner.foldl
          (fun gb di => if P dj di then gb.set (pos dj di) C else gb) ga) g).length =
        g.length := by
  induction l with
  | nil => intro g; rfl
  | cons a l ih =>
      intro g
      rw [List.foldl_cons, ih]
      exact foldl_setIf_length C (P a) (pos a) inner g

theorem foldl_setIf2_getElem? (C : Int) (P : Nat → Nat → Prop) [∀ a b, Decidable (P a b)]
    (pos : Nat → Nat → Nat) (inner : List Nat) (l : List Nat) :
    ∀ (g : List Int) (k : Nat),
      (l.foldl (fun ga dj => inner.foldl
          (fun gb di => if P dj di then gb.set (pos dj di) C else gb) ga) g)[k]? =
        if (∃ dj ∈ l, ∃ di ∈ inner, P dj di ∧ pos dj di = k) ∧ k < g.length then some C
        else g[k]? := by
  induction l with
  | nil =>
      intro g k
      rw [if_neg (by simp)]
      rfl
  | cons a l ih =>
      intro g k
      rw [List.foldl_cons, ih, foldl_setIf_length C (P a) (pos a) inner g,
        foldl_setIf_getElem? C (P a) (pos a) inner g k]
      simp only [List.exists_mem_cons_iff]
      by_cases h1 : (∃ dj ∈ l, ∃ di ∈ inner, P dj di ∧ pos dj di = k) ∧ k < g.length
      · rw [if_pos h1, if_pos ⟨Or.inr h1.1, h1.2⟩]
      · rw [if_neg h1]
        by_cases h2 : (∃ di ∈ inner, P a di ∧ pos a di = k) ∧ k < g.length
        · rw [if_pos h2, if_pos ⟨Or.inl h2.1, h2.2⟩]
        · rw [if_neg h2, if_neg (fun hh =>
            hh.1.elim (fun hhead => h2 ⟨hhead, hh.2⟩) (fun htail => h1 ⟨htail, hh.2⟩))]

theorem inject_length (g : List Int) (px py : ℚ) (a : Bool) (w h : Nat) :
    (inject g px py a w h).length = g.length := by
  simp only [inject]
  by_cases hc : (a : Prop) ∧ 0 < w
  · rw [if_pos hc]
    exact foldl_setIf2_length (wrap16 600)
      (fun dj di =>
        0 ≤ ⌊px * (w:ℚ)⌋ - 4 + (di:Int) ∧ ⌊px * (w:ℚ)⌋ - 4 + (di:Int) < (w:Int) ∧
        0 ≤ ⌊py * (h:ℚ)⌋ - 4 + (dj:Int) ∧ ⌊py * (h:ℚ)⌋ - 4 + (dj:Int) < (h:Int) ∧
        (⌊px * (w:ℚ)⌋ - 4 + (di:Int) - ⌊px * (w:ℚ)⌋) *
          (⌊px * (w:ℚ)⌋ - 4 + (di:Int) - ⌊px * (w:ℚ)⌋) +
        (⌊py * (h:ℚ)⌋ - 4 + (dj:Int) - ⌊py * (h:ℚ)⌋) *
          (⌊py * (h:ℚ)⌋ - 4 + (dj:Int) - ⌊py * (h:ℚ)⌋) < 16)
      (fun dj di => ((⌊py * (h:ℚ)⌋ - 4 + (dj:Int)) * (w:Int) +
        (⌊px * (w:ℚ)⌋ - 4 + (di:Int))).toNat)
      (List.range 8) (List.range 8) g
  · rw [if_neg hc]

theorem inject_getElem? (g : List Int) (px py : ℚ) (w h : Nat) (hw : 0 < w) (k : Nat) :
    (inject g px py true w h)[k]? =
      if (∃ dj ∈ List.range 8, ∃ di ∈ List.range 8,
            (0 ≤ ⌊px * (w:ℚ)⌋ - 4 + (di:Int) ∧ ⌊px * (w:ℚ)⌋ - 4 + (di:Int) < (w:Int) ∧
             0 ≤ ⌊py * (h:ℚ)⌋ - 4 + (dj:Int) ∧ ⌊py * (h:ℚ)⌋ - 4 + (dj:Int) < (h:Int) ∧
             (⌊px * (w:ℚ)⌋ - 4 + (di:Int) - ⌊px * (w:ℚ)⌋) *
               (⌊px * (w:ℚ)⌋ - 4 + (di:Int) - ⌊px * (w:ℚ)⌋) +
             (⌊py * (h:ℚ)⌋ - 4 + (dj:Int) - ⌊py * (h:ℚ)⌋) *
               (⌊py * (h:ℚ)⌋ - 4 + (dj:Int) - ⌊py * (h:ℚ)⌋) < 16) ∧
            ((⌊py * (h:ℚ)⌋ - 4 + (dj:Int)) * (w:Int) +
              (⌊px * (w:ℚ)⌋ - 4 + (di:Int))).toNat = k) ∧
        k < g.length
      then some (wrap16 600) else g[k]? := by
  simp only [inject]
  rw [if_pos ⟨by trivial, hw⟩]
  exact foldl_setIf2_getElem? (wrap16 600)
    (fun dj di =>
      0 ≤ ⌊px * (w:ℚ)⌋ - 4 + (di:Int) ∧ ⌊px * (w:ℚ)⌋ - 4 + (di:Int) < (w:Int) ∧
      0 ≤ ⌊py * (h:ℚ)⌋ - 4 + (dj:Int) ∧ ⌊py * (h:ℚ)⌋ - 4 + (dj:Int) < (h:Int) ∧
      (⌊px * (w:ℚ)⌋ - 4 + (di:Int) - ⌊px * (w:ℚ)⌋) *
        (⌊px * (w:ℚ)⌋ - 4 + (di:Int) - ⌊px * (w:ℚ)⌋) +
      (⌊py * (h:ℚ)⌋ - 4 + (dj:Int) - ⌊py * (h:ℚ)⌋) *
        (⌊py * (h:ℚ)⌋ - 4 + (dj:Int) - ⌊py * (h:ℚ)⌋) < 16)
    (fun dj di => ((⌊py * (h:ℚ)⌋ - 4 + (dj:Int)) * (w:Int) +
      (⌊px * (w:ℚ)⌋ - 4 + (di:Int))).toNat)
    (List.range 8) (List.range 8) g k

theorem interior_mem (w h x y : Nat) (hw : 3 ≤ w) (hh : 3 ≤ h)
    (hx1 : 1 ≤ x) (hx2 : x ≤ w - 2) (hy1 : 1 ≤ y) (hy2 : y ≤ h - 2) :
    w + 1 ≤ y * w + x ∧ y * w + x < w * h - w - 1 := by
  have hb : y * w ≤ (h - 2) * w := Nat.mul_le_mul_right w hy2
  have ha : 1 * w ≤ y * w := Nat.mul_le_mul_right w hy1
  have hc : (h - 2) * w + 2 * w = h * w := by
    rw [← Nat.add_mul]
    congr 1
    omega
  have hcomm : h * w = w * h := Nat.mul_comm h w
  rw [Nat.one_mul] at ha
  omega

theorem interior_mod (w x y : Nat) (hx : x < w) : (y * w + x) % w = x := by
  rw [Nat.add_comm, Nat.add_mul_mod_self_right, Nat.mod_eq_of_lt hx]

theorem interior_div (w x y : Nat) (hw : 0 < w) (hx : x < w) : (y * w + x) / w = y := by
  rw [Nat.add_comm, Nat.add_mul_div_right _ _ hw, Nat.div_eq_of_lt hx, Nat.zero_add]

theorem renderloop_byte (w h : Nat) (b1 b2 : List Int) (tex out0 : List Nat)
    (cfg : RippleConfig) (hw : 1 ≤ w) (hwh : 2 * w + 2 ≤ w * h)
    (hb2 : b2.length = w * h) (hout : out0.length = 4 * (w * h)) (i k : Nat)
    (hi1 : w + 1 ≤ i) (hi2 : i < w * h - w - 1) (hk : k < 4) :
    (renderloop w h b1 b2 tex cfg out0).2.getD (i * 4 + k) 0 =
      rgbaByte (renderPixel w h b1 b2 tex cfg i) k := by
  rw [List.getD_eq_getElem?_getD,
    renderloop_out w h b1 b2 tex out0 cfg hw hwh hb2 hout (i * 4 + k),
    if_pos (by omega)]
  have h1 : (i * 4 + k) / 4 = i := by omega
  have h2 : (i * 4 + k) % 4 = k := by omega
  rw [h1, h2]
  rfl

theorem wrap16_zero : wrap16 0 = 0 := by decide

theorem stepCell_zero (w : Nat) (b1 b2 : List Int) (d : ℚ) (i : Nat)
    (hz1 : ∀ j, b1.getD j 0 = 0) (hz2 : ∀ j, b2.getD j 0 = 0) :
    stepCell w b1 b2 d i = 0 := by
  have h0 : rawUpdate w b1 b2 i = 0 := by
    simp only [rawUpdate, hz1, hz2]
    decide
  rw [stepCell, h0, wrap16_zero]
  norm_num [wrap16_zero]

theorem mixVal_zero (w : Nat) (b1 b2 : List Int) (d : ℚ) (j : Nat)
    (hz1 : ∀ j, b1.getD j 0 = 0) (hz2 : ∀ j, b2.getD j 0 = 0) :
    mixVal w b1 b2 d j = 0 := by
  rw [mixVal]
  split_ifs
  · exact stepCell_zero w b1 b2 d j hz1 hz2
  · exact hz2 j

theorem gradX_zero (w : Nat) (b1 b2 : List Int) (d : ℚ) (i : Nat)
    (hz1 : ∀ j, b1.getD j 0 = 0) (hz2 : ∀ j, b2.getD j 0 = 0) :
    gradX w b1 b2 d i = 0 := by
  rw [gradX, mixVal_zero w b1 b2 d _ hz1 hz2, hz2]
  decide

theorem gradY_zero (w : Nat) (b1 b2 : List Int) (d : ℚ) (i : Nat)
    (hz1 : ∀ j, b1.getD j 0 = 0) (hz2 : ∀ j, b2.getD j 0 = 0) :
    gradY w b1 b2 d i = 0 := by
  rw [gradY, mixVal_zero w b1 b2 d _ hz1 hz2, hz2]
  decide

theorem distortion_zero (s : ℚ) : distortion s 0 = 0 := by
  simp [distortion]

theorem tintFactorOf_zero : tintFactorOf 0 0 = 0 := by
  norm_num [tintFactorOf]

theorem pixelCore_zero (w h : Nat) (tex : List Nat) (cfg : RippleConfig) (x y : Nat)
    (hx : x < w) (hy : y < h) (htex : ∀ j, tex.getD j 0 ≤ 255) :
    pixelCore w h tex cfg 0 0 x y =
      (tex.getD ((y * w + x) * 4) 0, tex.getD ((y * w + x) * 4 + 1) 0,
       tex.getD ((y * w + x) * 4 + 2) 0) := by
  have hcx : clampCoord ((x : Int) + 0) w = (x : Int) := by
    rw [Int.add_zero, clampCoord, if_neg (by omega), if_neg (by omega)]
  have hcy : clampCoord ((y : Int) + 0) h = (y : Int) := by
    rw [Int.add_zero, clampCoord, if_neg (by omega), if_neg (by omega)]
  have hidx : ((y : Int) * (w : Int) + (x : Int)).toNat = y * w + x := by
    rw [show (y : Int) * (w : Int) + (x : Int) = ((y * w + x : Nat) : Int) by push_cast; ring]
    exact Int.toNat_natCast _
  simp only [pixelCore, distortion_zero, tintFactorOf_zero, hcx, hcy, hidx, sub_self]
  rw [if_neg (by norm_num), if_neg (by norm_num), if_neg (by norm_num), if_neg (by norm_num)]
  rw [Nat.min_eq_right (htex _), Nat.min_eq_right (htex _), Nat.min_eq_right (htex _)]

/-! ## Claim theorems -/

/-- C9: color parsing is total and never raises: the string `"#ff0000"` parses to
RGB `(255, 0, 0)`, and any string that does not match the 6-hex-digit color
pattern parses to `(0, 0, 0)`. -/
theorem hex_parse_total (s : String) (hs : isHexColor s = false) :
    hexToRgb "#ff0000" = (255, 0, 0) ∧ hexToRgb s = (0, 0, 0) := by
  constructor
  · decide
  · unfold hexToRgb
    unfold isHexColor at hs
    rcases e : stripHash s.data with _ |
      ⟨c1, _ | ⟨c2, _ | ⟨c3, _ | ⟨c4, _ | ⟨c5, _ | ⟨c6, _ | ⟨c7, l⟩⟩⟩⟩⟩⟩⟩ <;>
      rw [e] at hs
    have hs2 : (isHexDigit c1 && isHexDigit c2 && isHexDigit c3 && isHexDigit c4 &&
        isHexDigit c5 && isHexDigit c6) = false := hs
    simp [hs2]

/-- Witness for C9 at the concrete non-hex string `"blue"`. -/
theorem hex_parse_total_witness :
    hexToRgb "#ff0000" = (255, 0, 0) ∧ hexToRgb "blue" = (0, 0, 0) :=
  hex_parse_total "blue" (by decide)

/-- C6: injection is idempotent (applying it twice with the same point equals
applying it once; writes are a fixed constant, nothing accumulates), and an
inactive point leaves the grid entirely unchanged. -/
theorem inject_idempotent (g : List Int) (px py : ℚ) (a : Bool) (w h : Nat) :
    inject (inject g px py a w h) px py a w h = inject g px py a w h ∧
    inject g px py false w h = g := by
  constructor
  · cases a with
    | false => simp [inject]
    | true =>
        rcases Nat.eq_zero_or_pos w with h0 | hw
        · subst h0
          simp [inject]
        · apply List.ext_getElem?
          intro k
          rw [inject_getElem? _ px py w h hw k, inject_getElem? g px py w h hw k,
            inject_length]
          split_ifs <;> rfl
  · simp [inject]

/-- C10: every value stored into a grid is in the signed 16-bit range: both
propagation stores go through the 16-bit wrap (congruent mod 2^16 to the
unwrapped value, landing in [-32768, 32767]), and injection stores either
leave a cell alone or store the in-range constant 600. -/
theorem grid_stores_wrap16 (w : Nat) (b1 b2 : List Int) (d : ℚ) (i : Nat)
    (g : List Int) (px py : ℚ) (a : Bool) (ww hh : Nat) (k : Nat) :
    (-32768 ≤ stepCell w b1 b2 d i ∧ stepCell w b1 b2 d i ≤ 32767) ∧
    stepCell w b1 b2 d i ≡ ⌊(wrap16 (rawUpdate w b1 b2 i) : ℚ) * d⌋ [ZMOD 65536] ∧
    (-32768 ≤ wrap16 (rawUpdate w b1 b2 i) ∧ wrap16 (rawUpdate w b1 b2 i) ≤ 32767) ∧
    wrap16 (rawUpdate w b1 b2 i) ≡ rawUpdate w b1 b2 i [ZMOD 65536] ∧
    ((inject g px py a ww hh).getD k 0 = g.getD k 0 ∨
      (inject g px py a ww hh).getD k 0 = 600) := by
  refine ⟨⟨wrap16_lb _, wrap16_ub _⟩, wrap16_modeq _, ⟨wrap16_lb _, wrap16_ub _⟩,
    wrap16_modeq _, ?_⟩
  cases a with
  | false =>
      left
      simp [inject]
  | true =>
      rcases Nat.eq_zero_or_pos ww with h0 | hw
      · left
        subst h0
        simp [inject]
      · rw [List.getD_eq_getElem?_getD, inject_getElem? g px py ww hh hw k]
        split_ifs
        · right
          decide
        · left
          rw [← List.getD_eq_getElem?_getD]

/-- C1 counterexample: with the halving division read as truncation toward
zero (as the claim's gloss demands), interior cell 4 of a 3x3 grid with
`cur = [0, -3, 0, ...]`, `prev = 0`, damping `9/10` would get `-1`; the code
(arithmetic shift, flooring toward negative infinity) stores `-2`. -/
theorem propagation_trunc_counterexample :
    (stepGrid 3 3 [0, -3, 0, 0, 0, 0, 0, 0, 0] (List.replicate 9 0) (9/10)).getD 4 0 = -2 ∧
    claimCellTrunc 3 [0, -3, 0, 0, 0, 0, 0, 0, 0] (List.replicate 9 0) (9/10) 4 = -1 := by
  with_unfolding_all decide

/-- C1 (amended): for every interior cell `(x, y)` the propagation step stores
`wrap16(floor(wrap16(floor_div2(cur[i-1]+cur[i+1]+cur[i-w]+cur[i+w]) - prev[i]) * damping))`,
where the halving is the arithmetic shift (floored toward negative infinity,
not truncated toward zero) and each store wraps to signed 16 bits. -/
theorem propagation_formula (w h : Nat) (b1 b2 : List Int) (d : ℚ) (x y : Nat)
    (hw : 3 ≤ w) (hh : 3 ≤ h) (hb2 : b2.length = w * h)
    (hx1 : 1 ≤ x) (hx2 : x ≤ w - 2) (hy1 : 1 ≤ y) (hy2 : y ≤ h - 2) :
    (stepGrid w h b1 b2 d).getD (y * w + x) 0 =
      wrap16 ⌊(wrap16 ((b1.getD (y * w + x - 1) 0 + b1.getD (y * w + x + 1) 0 +
        b1.getD (y * w + x - w) 0 + b1.getD (y * w + x + w) 0).fdiv 2 -
        b2.getD (y * w + x) 0) : ℚ) * d⌋ := by
  have hmem := interior_mem w h x y hw hh hx1 hx2 hy1 hy2
  rw [stepGrid_getD, if_pos ⟨hmem.1, hmem.2, by omega⟩]
  rfl

/-- Witness for C1's amended formula at the counterexample input. -/
theorem propagation_formula_witness :
    (stepGrid 3 3 [0, -3, 0, 0, 0, 0, 0, 0, 0] (List.replicate 9 0) (9/10)).getD
        (1 * 3 + 1) 0 =
      wrap16 ⌊(wrap16 ((([0, -3, 0, 0, 0, 0, 0, 0, 0] : List Int).getD (1 * 3 + 1 - 1) 0 +
        ([0, -3, 0, 0, 0, 0, 0, 0, 0] : List Int).getD (1 * 3 + 1 + 1) 0 +
        ([0, -3, 0, 0, 0, 0, 0, 0, 0] : List Int).getD (1 * 3 + 1 - 3) 0 +
        ([0, -3, 0, 0, 0, 0, 0, 0, 0] : List Int).getD (1 * 3 + 1 + 3) 0).fdiv 2 -
        (List.replicate 9 0).getD (1 * 3 + 1) 0) : ℚ) * (9/10)⌋ :=
  propagation_formula 3 3 [0, -3, 0, 0, 0, 0, 0, 0, 0] (List.replicate 9 0) (9/10) 1 1
    (by decide) (by decide) (by decide) (by decide) (by decide) (by decide) (by decide)

/-- C2 counterexample: cell 8 of a 4x4 grid lies in the left border column
(`8 % 4 = 0`), yet one propagation step overwrites it (with 25 here), because
the pixel loop runs over the flat index range and does not skip the side
columns. -/
theorem border_written_counterexample :
    (stepGrid 4 4 ((List.replicate 16 0).set 9 100) (List.replicate 16 0) (1/2)).getD 8 0
        = 25 ∧
    8 % 4 = 0 ∧ (List.replicate 16 (0 : Int)).getD 8 0 = 0 := by
  with_unfolding_all decide

/-- C2 (amended): the cells the propagation loop never writes are exactly those
with index `< w + 1` or `>= w*h - w - 1` (the top and bottom rows plus the two
cells flanking them); after any number of frames such a cell still holds the
value the corresponding buffer started with (buffers alternate with the swap).
Side-column cells strictly inside that range are updated like interior cells. -/
theorem untouched_cells_fixed (w h : Nat) (d : ℚ) (b1 b2 : List Int) (n j : Nat)
    (hj : j < w + 1 ∨ w * h - w - 1 ≤ j) :
    (((propFrame w h d)^[n] (b1, b2)).1[j]? =
        (if n % 2 = 0 then b1 else b2)[j]?) ∧
    (((propFrame w h d)^[n] (b1, b2)).2[j]? =
        (if n % 2 = 0 then b2 else b1)[j]?) := by
  induction n with
  | zero => exact ⟨rfl, rfl⟩
  | succ n ih =>
      rw [Function.iterate_succ_apply']
      simp only [propFrame]
      constructor
      · rw [stepGrid_getElem?, if_neg (by omega), ih.2]
        by_cases hp : n % 2 = 0
        · rw [if_pos hp, if_neg (by omega)]
        · rw [if_neg hp, if_pos (by omega)]
      · rw [ih.1]
        by_cases hp : n % 2 = 0
        · rw [if_pos hp, if_neg (by omega)]
        · rw [if_neg hp, if_pos (by omega)]

/-- Witness for C2's amended statement: one frame on a 3x3 grid leaves border
cell 0 of the current buffer holding the old previous-buffer value. -/
theorem untouched_cells_fixed_witness :
    (((propFrame 3 3 (1/2))^[1]
        (([1, 2, 3, 4, 5, 6, 7, 8, 9] : List Int),
         ([10, 11, 12, 13, 14, 15, 16, 17, 18] : List Int))).1[0]? =
      (if 1 % 2 = 0 then ([1, 2, 3, 4, 5, 6, 7, 8, 9] : List Int)
       else ([10, 11, 12, 13, 14, 15, 16, 17, 18] : List Int))[0]?) ∧
    (((propFrame 3 3 (1/2))^[1]
        (([1, 2, 3, 4, 5, 6, 7, 8, 9] : List Int),
         ([10, 11, 12, 13, 14, 15, 16, 17, 18] : List Int))).2[0]? =
      (if 1 % 2 = 0 then ([10, 11, 12, 13, 14, 15, 16, 17, 18] : List Int)
       else ([1, 2, 3, 4, 5, 6, 7, 8, 9] : List Int))[0]?) :=
  untouched_cells_fixed 3 3 (1/2) _ _ 1 0 (Or.inl (by decide))

/-- C3 counterexample: on a 4x4 grid with `cur[5] = 100`, damping `1/2`,
shimmer 5 and texture byte `k` at index `k`, the loop renders pixel 5 from the
not-yet-updated neighbours (gradients 0, byte 20), while gradients taken from
the fully post-propagation grid would displace the sample and tint it
(byte 0). -/
theorem gradient_post_counterexample :
    (renderloop 4 4 ((List.replicate 16 0).set 5 100) (List.replicate 16 0)
        (List.range 64)
        ⟨1/2, 5, "#000000", "#00d2ff", BackgroundType.solid, "t"⟩
        (List.replicate 64 0)).2.getD (5 * 4) 0 = 20 ∧
    (renderFromPost 4 4 ((List.replicate 16 0).set 5 100) (List.replicate 16 0)
        (List.range 64)
        ⟨1/2, 5, "#000000", "#00d2ff", BackgroundType.solid, "t"⟩ 5).1 = 0 := by
  with_unfolding_all decide

/-- C3 (amended): the bytes rendered for pixel `i` are computed from gradients
read off the partially updated buffer: the left and upper neighbours
(`i-1`, `i-w`) are this frame's freshly propagated values whenever they lie in
the update range, while the right and lower neighbours (`i+1`, `i+w`) are the
previous frame's values (`gradX`/`gradY`). -/
theorem render_uses_inloop_gradients (w h : Nat) (b1 b2 : List Int)
    (tex out0 : List Nat) (cfg : RippleConfig) (hw : 1 ≤ w) (hwh : 2 * w + 2 ≤ w * h)
    (hb2 : b2.length = w * h) (hout : out0.length = 4 * (w * h)) (i k : Nat)
    (hi1 : w + 1 ≤ i) (hi2 : i < w * h - w - 1) (hk : k < 4) :
    (renderloop w h b1 b2 tex cfg out0).2.getD (i * 4 + k) 0 =
      rgbaByte (pixelCore w h tex cfg (gradX w b1 b2 cfg.damping i)
        (gradY w b1 b2 cfg.damping i) (i % w) (i / w)) k :=
  renderloop_byte w h b1 b2 tex out0 cfg hw hwh hb2 hout i k hi1 hi2 hk

/-- Witness for C3's amended statement on a concrete 3x3 frame. -/
theorem render_uses_inloop_gradients_witness :
    (renderloop 3 3 (List.replicate 9 0) (List.replicate 9 0) (List.replicate 36 9)
        DEFAULT_CONFIG (List.replicate 36 0)).2.getD (4 * 4 + 0) 0 =
      rgbaByte (pixelCore 3 3 (List.replicate 36 9) DEFAULT_CONFIG
        (gradX 3 (List.replicate 9 0) (List.replicate 9 0) DEFAULT_CONFIG.damping 4)
        (gradY 3 (List.replicate 9 0) (List.replicate 9 0) DEFAULT_CONFIG.damping 4)
        (4 % 3) (4 / 3)) 0 :=
  render_uses_inloop_gradients 3 3 (List.replicate 9 0) (List.replicate 9 0)
    (List.replicate 36 9) (List.replicate 36 0) DEFAULT_CONFIG (by decide) (by decide)
    (by decide) (by decide) 4 0 (by decide) (by decide) (by decide)

/-- C5: with both amplitude buffers flat zero, every interior pixel has zero
displacement, zero shading (no highlight), zero tint factor, and its output
RGB equals the texture RGB at the same pixel with alpha 255. -/
theorem flat_grid_identity (w h : Nat) (b1 b2 : List Int) (tex out0 : List Nat)
    (cfg : RippleConfig) (hw : 3 ≤ w) (hh : 3 ≤ h) (hwh : 2 * w + 2 ≤ w * h)
    (hb2 : b2.length = w * h) (hout : out0.length = 4 * (w * h))
    (hz1 : ∀ j, b1.getD j 0 = 0) (hz2 : ∀ j, b2.getD j 0 = 0)
    (htex : ∀ j, tex.getD j 0 ≤ 255)
    (x y : Nat) (hx1 : 1 ≤ x) (hx2 : x ≤ w - 2) (hy1 : 1 ≤ y) (hy2 : y ≤ h - 2) :
    distortion cfg.shimmer (gradX w b1 b2 cfg.damping (y * w + x)) = 0 ∧
    distortion cfg.shimmer (gradY w b1 b2 cfg.damping (y * w + x)) = 0 ∧
    gradX w b1 b2 cfg.damping (y * w + x) - gradY w b1 b2 cfg.damping (y * w + x) = 0 ∧
    tintFactorOf (distortion cfg.shimmer (gradX w b1 b2 cfg.damping (y * w + x)))
      (distortion cfg.shimmer (gradY w b1 b2 cfg.damping (y * w + x))) = 0 ∧
    (renderloop w h b1 b2 tex cfg out0).2.getD ((y * w + x) * 4) 0 =
      tex.getD ((y * w + x) * 4) 0 ∧
    (renderloop w h b1 b2 tex cfg out0).2.getD ((y * w + x) * 4 + 1) 0 =
      tex.getD ((y * w + x) * 4 + 1) 0 ∧
    (renderloop w h b1 b2 tex cfg out0).2.getD ((y * w + x) * 4 + 2) 0 =
      tex.getD ((y * w + x) * 4 + 2) 0 ∧
    (renderloop w h b1 b2 tex cfg out0).2.getD ((y * w + x) * 4 + 3) 0 = 255 := by
  have hgx := gradX_zero w b1 b2 cfg.damping (y * w + x) hz1 hz2
  have hgy := gradY_zero w b1 b2 cfg.damping (y * w + x) hz1 hz2
  have hmem := interior_mem w h x y hw hh hx1 hx2 hy1 hy2
  have hxw : x < w := by omega
  have hyh : y < h := by omega
  have hmod := interior_mod w x y hxw
  have hdiv := interior_div w x y (by omega) hxw
  have hbyte : ∀ k, k < 4 →
      (renderloop w h b1 b2 tex cfg out0).2.getD ((y * w + x) * 4 + k) 0 =
        rgbaByte (renderPixel w h b1 b2 tex cfg (y * w + x)) k :=
    fun k hk => renderloop_byte w h b1 b2 tex out0 cfg (by omega) hwh hb2 hout
      (y * w + x) k hmem.1 hmem.2 hk
  have hrp : renderPixel w h b1 b2 tex cfg (y * w + x) =
      (tex.getD ((y * w + x) * 4) 0, tex.getD ((y * w + x) * 4 + 1) 0,
       tex.getD ((y * w + x) * 4 + 2) 0) := by
    rw [renderPixel, hgx, hgy, hmod, hdiv]
    exact pixelCore_zero w h tex cfg x y hxw hyh htex
  have h0 := hbyte 0 (by norm_num)
  rw [Nat.add_zero] at h0
  refine ⟨by rw [hgx]; exact distortion_zero _,
    by rw [hgy]; exact distortion_zero _,
    by rw [hgx, hgy]; decide,
    by rw [hgx, hgy, distortion_zero]; exact tintFactorOf_zero,
    ?_, ?_, ?_, ?_⟩
  · rw [h0, hrp]
    rfl
  · rw [hbyte 1 (by norm_num), hrp]
    rfl
  · rw [hbyte 2 (by norm_num), hrp]
    rfl
  · rw [hbyte 3 (by norm_num)]
    rfl

/-- Witness for C5 on a concrete 3x3 frame with a constant texture. -/
theorem flat_grid_identity_witness :
    distortion DEFAULT_CONFIG.shimmer
        (gradX 3 (List.replicate 9 0) (List.replicate 9 0) DEFAULT_CONFIG.damping
          (1 * 3 + 1)) = 0 ∧
    distortion DEFAULT_CONFIG.shimmer
        (gradY 3 (List.replicate 9 0) (List.replicate 9 0) DEFAULT_CONFIG.damping
          (1 * 3 + 1)) = 0 ∧
    gradX 3 (List.replicate 9 0) (List.replicate 9 0) DEFAULT_CONFIG.damping (1 * 3 + 1) -
      gradY 3 (List.replicate 9 0) (List.replicate 9 0) DEFAULT_CONFIG.damping
        (1 * 3 + 1) = 0 ∧
    tintFactorOf
      (distortion DEFAULT_CONFIG.shimmer
        (gradX 3 (List.replicate 9 0) (List.replicate 9 0) DEFAULT_CONFIG.damping
          (1 * 3 + 1)))
      (distortion DEFAULT_CONFIG.shimmer
        (gradY 3 (List.replicate 9 0) (List.replicate 9 0) DEFAULT_CONFIG.damping
          (1 * 3 + 1))) = 0 ∧
    (renderloop 3 3 (List.replicate 9 0) (List.replicate 9 0) (List.replicate 36 9)
        DEFAULT_CONFIG (List.replicate 36 0)).2.getD ((1 * 3 + 1) * 4) 0 =
      (List.replicate 36 9).getD ((1 * 3 + 1) * 4) 0 ∧
    (renderloop 3 3 (List.replicate 9 0) (List.replicate 9 0) (List.replicate 36 9)
        DEFAULT_CONFIG (List.replicate 36 0)).2.getD ((1 * 3 + 1) * 4 + 1) 0 =
      (List.replicate 36 9).getD ((1 * 3 + 1) * 4 + 1) 0 ∧
    (renderloop 3 3 (List.replicate 9 0) (List.replicate 9 0) (List.replicate 36 9)
        DEFAULT_CONFIG (List.replicate 36 0)).2.getD ((1 * 3 + 1) * 4 + 2) 0 =
      (List.replicate 36 9).getD ((1 * 3 + 1) * 4 + 2) 0 ∧
    (renderloop 3 3 (List.replicate 9 0) (List.replicate 9 0) (List.replicate 36 9)
        DEFAULT_CONFIG (List.replicate 36 0)).2.getD ((1 * 3 + 1) * 4 + 3) 0 = 255 :=
  flat_grid_identity 3 3 (List.replicate 9 0) (List.replicate 9 0) (List.replicate 36 9)
    (List.replicate 36 0) DEFAULT_CONFIG (by decide) (by decide) (by decide) (by decide)
    (by decide) (fun j => getD_replicate_self 0 9 j)
    (fun j => getD_replicate_self 0 9 j)
    (fun j => by rcases getD_replicate_nat 9 36 j with hc | hc <;> rw [hc] <;> norm_num)
    1 1 (by decide) (by decide) (by decide) (by decide)

/-- C7: the pixel loop is deterministic (bit-identical inputs give bit-identical
grid and output results), and its writes into the amplitude buffer are exactly
the physics update: the resulting grid equals `stepGrid` and does not depend on
the texture or the output buffer the renderer reads and writes. -/
theorem renderer_deterministic (w h : Nat) (b1 b2 b1x b2x : List Int)
    (tex texx tex2 : List Nat) (cfg cfgx : RippleConfig) (out0 out0x out2 : List Nat)
    (e1 : b1 = b1x) (e2 : b2 = b2x) (e3 : tex = texx) (e4 : cfg = cfgx)
    (e5 : out0 = out0x) :
    renderloop w h b1 b2 tex cfg out0 = renderloop w h b1x b2x texx cfgx out0x ∧
    (renderloop w h b1 b2 tex cfg out0).1 = stepGrid w h b1 b2 cfg.damping ∧
    (renderloop w h b1 b2 tex cfg out0).1 = (renderloop w h b1 b2 tex2 cfg out2).1 := by
  subst e1
  subst e2
  subst e3
  subst e4
  subst e5
  refine ⟨rfl, renderloop_fst w h b1 b2 tex out0 cfg, ?_⟩
  rw [renderloop_fst, renderloop_fst]

/-- Witness for C7 at concrete inputs. -/
theorem renderer_deterministic_witness :
    renderloop 3 3 (List.replicate 9 0) (List.replicate 9 0) (List.replicate 36 9)
        DEFAULT_CONFIG (List.replicate 36 0) =
      renderloop 3 3 (List.replicate 9 0) (List.replicate 9 0) (List.replicate 36 9)
        DEFAULT_CONFIG (List.replicate 36 0) ∧
    (renderloop 3 3 (List.replicate 9 0) (List.replicate 9 0) (List.replicate 36 9)
        DEFAULT_CONFIG (List.replicate 36 0)).1 =
      stepGrid 3 3 (List.replicate 9 0) (List.replicate 9 0) DEFAULT_CONFIG.damping ∧
    (renderloop 3 3 (List.replicate 9 0) (List.replicate 9 0) (List.replicate 36 9)
        DEFAULT_CONFIG (List.replicate 36 0)).1 =
      (renderloop 3 3 (List.replicate 9 0) (List.replicate 9 0) (List.replicate 48 7)
        DEFAULT_CONFIG (List.replicate 48 1)).1 :=
  renderer_deterministic 3 3 (List.replicate 9 0) (List.replicate 9 0)
    (List.replicate 9 0) (List.replicate 9 0) (List.replicate 36 9) (List.replicate 36 9)
    (List.replicate 48 7) DEFAULT_CONFIG DEFAULT_CONFIG (List.replicate 36 0)
    (List.replicate 36 0) (List.replicate 48 1) rfl rfl rfl rfl rfl

/-- C8 counterexample: damping `1/2` lies in `(0, 1)` and no injection happens,
yet a 3x3 state whose border cells hold 600 is a fixed point of propagation
with interior amplitude 400, so after 500 iterations the maximum absolute
interior value is still 400, not at most 1: border cells act as a constant
source for their interior neighbours. -/
theorem decay_counterexample :
    (0 < (1 : ℚ)/2 ∧ (1 : ℚ)/2 < 1) ∧
    ¬ ((((propFrame 3 3 ((1 : ℚ)/2))^[500]
        ((List.replicate 9 600).set 4 400,
         (List.replicate 9 600).set 4 400)).1.getD 4 0).natAbs ≤ 1) := by
  constructor
  · constructor <;> with_unfolding_all decide
  · have hfix : propFrame 3 3 ((1 : ℚ)/2)
        ((List.replicate 9 600).set 4 400, (List.replicate 9 600).set 4 400) =
        ((List.replicate 9 600).set 4 400, (List.replicate 9 600).set 4 400) := by
      with_unfolding_all decide
    rw [Function.iterate_fixed hfix 500]
    with_unfolding_all decide

set_option maxRecDepth 16000 in
/-- C8 (amended): decay as claimed does not hold in general (the counterexample
has nonzero border cells, and damping close to 1 also defeats it), but it does
hold in the zero-border regime: on a 3x3 grid with zero border, interior
amplitude 600 and damping `1/2`, 500 propagation iterations reach the all-zero
state, so the maximum absolute interior value is at most 1 (in fact 0). -/
theorem decay_zero_border_example :
    ((propFrame 3 3 ((1 : ℚ)/2))^[500]
        ((List.replicate 9 0).set 4 600, List.replicate 9 0)) =
      (List.replicate 9 0, List.replicate 9 0) ∧
    ((((propFrame 3 3 ((1 : ℚ)/2))^[500]
        ((List.replicate 9 0).set 4 600, List.replicate 9 0)).1.getD 4 0).natAbs ≤ 1) := by
  have h20 : (propFrame 3 3 ((1 : ℚ)/2))^[20]
      ((List.replicate 9 0).set 4 600, List.replicate 9 0) =
      (List.replicate 9 0, List.replicate 9 0) := by
    with_unfolding_all decide
  have hfix : propFrame 3 3 ((1 : ℚ)/2) (List.replicate 9 0, List.replicate 9 0) =
      (List.replicate 9 0, List.replicate 9 0) := by
    with_unfolding_all decide
  have h500 : (propFrame 3 3 ((1 : ℚ)/2))^[500]
      ((List.replicate 9 0).set 4 600, List.replicate 9 0) =
      (List.replicate 9 0, List.replicate 9 0) := by
    rw [show (500 : Nat) = 480 + 20 from rfl, Function.iterate_add_apply, h20,
      Function.iterate_fixed hfix 480]
  rw [h500]
  exact ⟨rfl, by decide⟩

/-- C4: on a 10x10 grid, injecting at `(x = 0.5, y = 0.5, active = true)` sets
every cell whose squared distance from pixel `(5, 5)` is `< 16` to exactly 600
(overwriting), and leaves every other cell unchanged. -/
theorem inject_exactness (g : List Int) (hg : g.length = 100) (k : Nat) (hk : k < 100) :
    (inject g (1/2) (1/2) true 10 10).getD k 0 =
      if ((k % 10 : Int) - 5) * ((k % 10 : Int) - 5) +
          ((k / 10 : Int) - 5) * ((k / 10 : Int) - 5) < 16
      then 600 else g.getD k 0 := by
  rw [List.getD_eq_getElem?_getD, inject_getElem? g (1/2) (1/2) 10 10 (by norm_num) k]
  have hfl : ⌊(1/2 : ℚ) * ((10 : Nat) : ℚ)⌋ = (5 : Int) := by
    with_unfolding_all decide
  rw [hfl]
  have key : ∀ m : Nat, m < 100 →
      ((∃ dj ∈ List.range 8, ∃ di ∈ List.range 8,
          (0 ≤ (5 : Int) - 4 + (di : Int) ∧ (5 : Int) - 4 + (di : Int) < ((10 : Nat) : Int) ∧
           0 ≤ (5 : Int) - 4 + (dj : Int) ∧ (5 : Int) - 4 + (dj : Int) < ((10 : Nat) : Int) ∧
           ((5 : Int) - 4 + (di : Int) - 5) * ((5 : Int) - 4 + (di : Int) - 5) +
             ((5 : Int) - 4 + (dj : Int) - 5) * ((5 : Int) - 4 + (dj : Int) - 5) < 16) ∧
          (((5 : Int) - 4 + (dj : Int)) * ((10 : Nat) : Int) +
            ((5 : Int) - 4 + (di : Int))).toNat = m) ↔
        (((m % 10 : Int) - 5) * ((m % 10 : Int) - 5) +
          ((m / 10 : Int) - 5) * ((m / 10 : Int) - 5) < 16)) := by
    decide
  by_cases hd : ((k % 10 : Int) - 5) * ((k % 10 : Int) - 5) +
      ((k / 10 : Int) - 5) * ((k / 10 : Int) - 5) < 16
  · rw [if_pos hd, if_pos ⟨(key k hk).mpr hd, by omega⟩]
    decide
  · rw [if_neg hd, if_neg (fun hc => hd ((key k hk).mp hc.1)),
      ← List.getD_eq_getElem?_getD]

/-- Witness for C4 at the centre cell 55 = (5, 5). -/
theorem inject_exactness_witness :
    (inject (List.replicate 100 7) (1/2) (1/2) true 10 10).getD 55 0 =
      if ((55 % 10 : Int) - 5) * ((55 % 10 : Int) - 5) +
          ((55 / 10 : Int) - 5) * ((55 / 10 : Int) - 5) < 16
      then 600 else (List.replicate 100 7).getD 55 0 :=
  inject_exactness (List.replicate 100 7) (by decide) 55 (by decide)

end Water
